import Mathlib

/-!
Shallow embedding of the two core components of the BI-Project repository:

* `src/models/anomaly_detection.py` — rolling-statistics anomaly detection
  over a per-airport daily delay series, and
* `src/models/delay_logreg.py` together with
  `src/app/callbacks/predictive_delay.py` — the delay-probability feature
  pipeline, its persisted artifact and the single-row inference contract.

Conventions of the embedding:

* Calendar dates are embedded as `Int` day ordinals; ISO "YYYY-MM-DD"
  strings compare exactly like their day ordinals, so date comparisons in
  the source become `Int` comparisons here.
* Nullable floats (pandas NaN) are embedded as `Option ℚ`; exact rational
  arithmetic replaces IEEE floats.  Modern pandas returns an exact 0.0
  rolling variance for a constant window (it tracks runs of identical
  values), so exact arithmetic is faithful on the degenerate-variance
  cases the spec cares about.
* `math.sqrt` / the square root inside `pandas .std(ddof=0)` has no exact
  rational counterpart, so the rolling standard deviation is parametrized
  by an explicit function `sqrt : ℚ → ℚ` applied to the rolling population
  variance.  Every claim proved below holds for an arbitrary such
  function (at most assuming `sqrt 0 = 0`, which is true of the real
  square root), so nothing depends on the numerical value of the root.
* The warehouse query boundary (SQL in `_load_daily_delays_for_airport`)
  is embedded as an injected function from the normalized airport key to
  the per-day aggregate rows; the loader's date restriction and sort are
  modelled explicitly.
* Python exceptions become `Except`; the raised messages mirror the
  messages of the source (pandas parameter validation, the
  FileNotFoundError text of `_load_trained_pipeline`).
-/

namespace BIProject

/-- Python `str.strip()`: remove leading and trailing whitespace.  Embedded
structurally over the character list (Lean's own `String.trim` is
observationally the same but is not kernel-reducible). -/
def pyStrip (s : String) : String :=
  String.mk (((s.data.dropWhile Char.isWhitespace).reverse.dropWhile Char.isWhitespace).reverse)

/-- Python `str.upper()` on the ASCII identifiers this system handles:
uppercase every character. -/
def pyUpper (s : String) : String :=
  String.mk (s.data.map Char.toUpper)

/-- Daily aggregate row for one airport, as produced by the warehouse query
in `_load_daily_delays_for_airport` (src/models/anomaly_detection.py,
lines 39-61): date, average departure delay of the day (nullable), and the
number of flights of the day. -/
structure DailyRow where
  date : Int
  avg_dep_delay : Option ℚ
  num_flights : Int
deriving DecidableEq, Inhabited

/-- Row of `_compute_z_scores`' result: the daily aggregate columns plus
rolling_mean, rolling_std and z_score (src/models/anomaly_detection.py,
lines 108-114). -/
structure ZRow where
  date : Int
  avg_dep_delay : Option ℚ
  num_flights : Int
  rolling_mean : Option ℚ
  rolling_std : Option ℚ
  z_score : Option ℚ
deriving DecidableEq, Inhabited

/-- Ordering of daily rows by the date column. -/
def dailyLe (a b : DailyRow) : Prop := a.date ≤ b.date

instance : DecidableRel dailyLe := fun a b => inferInstanceAs (Decidable (a.date ≤ b.date))

instance : IsTotal DailyRow dailyLe := ⟨fun a b => le_total a.date b.date⟩

instance : IsTrans DailyRow dailyLe := ⟨fun _ _ _ h h' => le_trans h h'⟩

/-- Embedding of `df.sort_values("date")` on the loaded daily rows. -/
def sortByDate (df : List DailyRow) : List DailyRow := List.insertionSort dailyLe df

/-- NaN-propagating subtraction on nullable values, as in the pandas
expression `df["avg_dep_delay"] - df["rolling_mean"]`. -/
def osub : Option ℚ → Option ℚ → Option ℚ
  | some a, some b => some (a - b)
  | _, _ => none

/-- NaN-propagating division on nullable values, as in the pandas
expression `... / df["rolling_std"]`. -/
def odiv : Option ℚ → Option ℚ → Option ℚ
  | some a, some b => some (a / b)
  | _, _ => none

/-- Column `avg_dep_delay` of a daily frame, the series the rolling window
runs over. -/
def avgsOf (df : List DailyRow) : List (Option ℚ) := df.map (fun r => r.avg_dep_delay)

/-- Non-null values inside the trailing window of size `w` ending at index
`i` (inclusive, no look-ahead), mirroring how `Series.rolling(window=w)`
slices the series and how its aggregations skip NaN entries. -/
def windowVals (w : Nat) (xs : List (Option ℚ)) (i : Nat) : List ℚ :=
  ((xs.take (i + 1)).drop (i + 1 - w)).filterMap id

/-- Rolling mean at index `i` with pandas `min_periods` semantics: defined
iff the trailing window holds at least `max p 1` non-null observations
(src/models/anomaly_detection.py, lines 90-97). -/
def rollingMeanAt (w p : Nat) (xs : List (Option ℚ)) (i : Nat) : Option ℚ :=
  let vs := windowVals w xs i
  if p ≤ vs.length ∧ 1 ≤ vs.length then some (vs.sum / (vs.length : ℚ)) else none

/-- Rolling population variance (the square of `.std(ddof=0)`) at index
`i`, under the same `min_periods` condition as the mean
(src/models/anomaly_detection.py, lines 99-106). -/
def rollingVarAt (w p : Nat) (xs : List (Option ℚ)) (i : Nat) : Option ℚ :=
  let vs := windowVals w xs i
  if p ≤ vs.length ∧ 1 ≤ vs.length then
    some (((vs.map (fun x => (x - vs.sum / (vs.length : ℚ)) ^ 2)).sum) / (vs.length : ℚ))
  else none

/-- Rolling population standard deviation: the square root of the rolling
variance, with the square root passed in explicitly (see the header
comment). -/
def rollingStdAt (sqrt : ℚ → ℚ) (w p : Nat) (xs : List (Option ℚ)) (i : Nat) : Option ℚ :=
  (rollingVarAt w p xs i).map sqrt

/-- Z-score of one day from its own columns: the raw value
`(avg_dep_delay - rolling_mean) / rolling_std` masked to exactly 0 when
rolling_std is null or exactly 0
(src/models/anomaly_detection.py, lines 111-112). -/
def zScoreOf (avg mean std : Option ℚ) : Option ℚ :=
  if std = none ∨ std = some 0 then some 0 else odiv (osub avg mean) std

/-- Rows of `_compute_z_scores`' result on an already-sorted frame: every
input row annotated with its rolling statistics and z-score. -/
def zRows (sqrt : ℚ → ℚ) (w p : Nat) (df : List DailyRow) : List ZRow :=
  let xs := avgsOf df
  (List.range df.length).map (fun i =>
    let r := df.getD i default
    let m := rollingMeanAt w p xs i
    let s := rollingStdAt sqrt w p xs i
    { date := r.date
      avg_dep_delay := r.avg_dep_delay
      num_flights := r.num_flights
      rolling_mean := m
      rolling_std := s
      z_score := zScoreOf r.avg_dep_delay m s })

/-- Embedding of `_compute_z_scores` (src/models/anomaly_detection.py,
lines 72-116).  An empty frame is returned unchanged before anything else
happens (line 85-86); otherwise the frame is copied and sorted by date
(line 88) and the rolling statistics are attached.  The `.rolling(...)`
calls validate their parameters exactly as pandas does and raise
ValueError — embedded as `Except.error` with the pandas messages — when
`min_periods` is negative, exceeds `window`, or `window` is negative. -/
def computeZScores (sqrt : ℚ → ℚ) (window minPeriods : Int) (df : List DailyRow) :
    Except String (List ZRow) :=
  if df.isEmpty then .ok []
  else
    let sorted := sortByDate df
    if minPeriods < 0 then .error "min_periods must be >= 0"
    else if window < minPeriods then
      .error ("min_periods " ++ toString minPeriods ++ " must be <= window " ++ toString window)
    else if window < 0 then .error "window must be an integer 0 or greater"
    else .ok (zRows sqrt window.toNat minPeriods.toNat sorted)

/-- Output row of `detect_anomalies`
(src/models/anomaly_detection.py, lines 140-147 and 177). -/
structure OutRow where
  date : Int
  avg_dep_delay : Option ℚ
  num_flights : Int
  z_score : Option ℚ
  is_anomaly : Bool
deriving DecidableEq, Inhabited

/-- Ordering of output rows by the date column. -/
def outLe (a b : OutRow) : Prop := a.date ≤ b.date

instance : DecidableRel outLe := fun a b => inferInstanceAs (Decidable (a.date ≤ b.date))

instance : IsTotal OutRow outLe := ⟨fun a b => le_total a.date b.date⟩

instance : IsTrans OutRow outLe := ⟨fun _ _ _ h h' => le_trans h h'⟩

/-- Embedding of the final `df_period.sort_values("date")` of
`detect_anomalies` (src/models/anomaly_detection.py, line 175). -/
def sortOutByDate (df : List OutRow) : List OutRow := List.insertionSort outLe df

/-- Boolean `series.abs() > threshold` on one nullable z-score entry; a NaN
entry compares as not-greater, exactly as in pandas. -/
def absGtQ (z : Option ℚ) (threshold : ℚ) : Bool :=
  match z with
  | none => false
  | some v => decide (threshold < |v|)

/-- Embedding of `_load_daily_delays_for_airport`
(src/models/anomaly_detection.py, lines 20-69).  The warehouse is injected
as `query`, a map from the normalized airport key to that airport's
per-day aggregate rows; the SQL restricts the dates to
[start - extra_history_days, end] (lines 37 and 49) and the result is
sorted ascending by date (lines 52 and 67).  The airport parameter is
normalized with `.strip().upper()` when the query is built (line 56). -/
def loadDailyDelaysForAirport (query : String → List DailyRow) (airport_id : String)
    (startDate endDate extraHistoryDays : Int) : List DailyRow :=
  let rows := (query (pyUpper (pyStrip airport_id))).filter
    (fun r => decide (startDate - extraHistoryDays ≤ r.date ∧ r.date ≤ endDate))
  sortByDate rows

/-- Embedding of `detect_anomalies` (src/models/anomaly_detection.py,
lines 119-177).  The source's defaults are threshold=3.0, window=30,
min_periods=10, min_flights_per_day=20; the embedding passes every
parameter explicitly.  The airport id is normalized (line 150), the loader
is called with `extra_history_days := window` (line 156), an empty load
short-circuits to an empty frame (lines 159-162), the z-scored frame is
restricted to [start, end], filtered by the minimum daily flight count,
flagged with `is_anomaly = |z| > threshold`, and sorted ascending by date
(lines 166-177). -/
def detectAnomalies (sqrt : ℚ → ℚ) (query : String → List DailyRow) (airport_id : String)
    (startDate endDate : Int) (threshold : ℚ) (window minPeriods minFlightsPerDay : Int) :
    Except String (List OutRow) :=
  let a := pyUpper (pyStrip airport_id)
  let dfDaily := loadDailyDelaysForAirport query a startDate endDate window
  if dfDaily.isEmpty then .ok []
  else
    match computeZScores sqrt window minPeriods dfDaily with
    | .error e => .error e
    | .ok dz =>
      let dfPeriod := dz.filter (fun r => decide (startDate ≤ r.date ∧ r.date ≤ endDate))
      let dfPeriod2 := dfPeriod.filter (fun r => decide (minFlightsPerDay ≤ r.num_flights))
      let flagged := dfPeriod2.map (fun r =>
        ({ date := r.date
           avg_dep_delay := r.avg_dep_delay
           num_flights := r.num_flights
           z_score := r.z_score
           is_anomaly := absGtQ r.z_score threshold } : OutRow))
      .ok (sortOutByDate flagged)

/-- Anomaly record dataclass (src/models/anomaly_detection.py, lines
12-17). -/
structure AnomalyResult where
  date : Int
  avg_dep_delay : Option ℚ
  num_flights : Int
  z_score : Option ℚ
deriving DecidableEq, Inhabited

/-- Conversion of one anomalous output row to the dataclass, mirroring the
constructor call of `detect_anomalies_list`
(src/models/anomaly_detection.py, lines 211-218); the `float(...)` and
`int(...)` casts there are identities on already-float / already-int
columns. -/
def toAnomalyResult (r : OutRow) : AnomalyResult :=
  { date := r.date
    avg_dep_delay := r.avg_dep_delay
    num_flights := r.num_flights
    z_score := r.z_score }

/-- Embedding of `detect_anomalies_list` (src/models/anomaly_detection.py,
lines 180-220): run `detect_anomalies` with identical arguments, return []
for an empty frame, otherwise keep exactly the rows whose is_anomaly flag
is set, in order, converted to `AnomalyResult`. -/
def detectAnomaliesList (sqrt : ℚ → ℚ) (query : String → List DailyRow) (airport_id : String)
    (startDate endDate : Int) (threshold : ℚ) (window minPeriods minFlightsPerDay : Int) :
    Except String (List AnomalyResult) :=
  match detectAnomalies sqrt query airport_id startDate endDate threshold window minPeriods
      minFlightsPerDay with
  | .error e => .error e
  | .ok df =>
    if df.isEmpty then .ok []
    else .ok ((df.filter (fun r => r.is_anomaly)).map toAnomalyResult)

/-- Cell value of a feature row: categorical cells are strings, numeric
cells rationals, boolean cells booleans (src/models/delay_logreg.py passes
strings, floats, ints and a bool through the single-row DataFrame at lines
336-354; ints are embedded as rationals). -/
inductive Value where
  | str : String → Value
  | num : ℚ → Value
  | bool : Bool → Value
deriving DecidableEq, Inhabited

/-- One feature row: a finite map from column name to cell value, embedded
as an association list (the single-row DataFrame of the inference path, or
one row of the training frame). -/
def Row : Type := List (String × Value)

/-- Lookup of a named column in a row. -/
def getCol (row : Row) (c : String) : Option Value :=
  (row.find? (fun kv => decide (kv.1 = c))).map (fun kv => kv.2)

/-- Selection of the named columns of a row, in order; `none` when any
named column is absent from the row (sklearn raises on a fitted column
that is missing from the input frame, and ignores extra columns). -/
def selectCols (row : Row) (cols : List String) : Option (List Value) :=
  cols.mapM (getCol row)

/-- Fitted pipeline (the `Pipeline` object built in `build_pipeline`,
src/models/delay_logreg.py, lines 149-190, after `fit`).  Its
ColumnTransformer carries the ordered categorical and numeric column-name
lists it was constructed with (lines 169-174) and selects exactly those
columns, in that order, from any frame it later transforms.  The fitted
encoders (one-hot categories, scaler statistics) and the fitted logistic
regression are classifier internals out of the spec's scope; their
composite effect on the selected cell values is abstracted as the opaque
function `clf` from the selected values to the class-1 probability. -/
structure FittedPipeline where
  catFeatures : List String
  numFeatures : List String
  clf : List Value → ℚ

/-- Ordered list of input columns the fitted ColumnTransformer selects
when it encodes a frame: its categorical columns followed by its numeric
columns, in the order it was constructed with. -/
def pipelineInputCols (p : FittedPipeline) : List String :=
  p.catFeatures ++ p.numFeatures

/-- Application of the fitted pipeline's `predict_proba` to one row:
select the fitted input columns by name (error when one is missing from
the row), then apply the fitted transform-and-classify composite. -/
def pipelinePredictProba (p : FittedPipeline) (row : Row) : Except String ℚ :=
  match selectCols row (pipelineInputCols p) with
  | none => .error "columns are missing"
  | some vals => .ok (p.clf vals)

/-- Persisted trained artifact: the dict dumped by `train_model`
(src/models/delay_logreg.py, lines 269-278) holding the fitted pipeline,
the exact ordered categorical and numeric feature-name lists it was fitted
with, and the summary metrics. -/
structure Artifact where
  pipeline : FittedPipeline
  categorical_features : List String
  numeric_features : List String
  metrics : List (String × ℚ)

/-- Categorical feature names hardcoded in `train_model`
(src/models/delay_logreg.py, lines 214-222). -/
def categoricalFeaturesTrain : List String :=
  ["dep_airport_id", "arr_airport_id", "airline_id", "dep_time_label",
   "month", "day_of_week", "is_weekend"]

/-- Numeric feature names hardcoded in `train_model`
(src/models/delay_logreg.py, line 223). -/
def numericFeaturesTrain : List String :=
  ["tavg", "prcp", "wspd", "num_departures_same_slot_airport"]

/-- Embedding of `build_pipeline` (src/models/delay_logreg.py, lines
149-190) combined with the subsequent `pipeline.fit` of `train_model`:
the ColumnTransformer remembers the two ordered column-name lists, and
fitting produces the opaque transform-and-classify composite. -/
def buildPipeline (cats nums : List String) (fit : List Value → ℚ) : FittedPipeline :=
  { catFeatures := cats, numFeatures := nums, clf := fit }

/-- Embedding of `train_model` (src/models/delay_logreg.py, lines
193-281) restricted to what it persists: the data loading, stratified
split, gradient fitting and metric computation are classifier internals
out of the spec's scope and enter as the abstract `fit` and `metrics`;
the artifact stores the fitted pipeline together with the same hardcoded
feature-name lists the pipeline was built from (lines 270-278). -/
def trainModel (fit : List Value → ℚ) (metrics : List (String × ℚ)) : Artifact :=
  let pipeline := buildPipeline categoricalFeaturesTrain numericFeaturesTrain fit
  { pipeline := pipeline
    categorical_features := categoricalFeaturesTrain
    numeric_features := numericFeaturesTrain
    metrics := metrics }

/-- Error taxonomy of the inference path: the FileNotFoundError raised by
`_load_trained_pipeline` when no artifact is persisted, and any error
raised by the fitted pipeline itself. -/
inductive PredError where
  | modelNotFound : String → PredError
  | pipelineError : String → PredError
deriving DecidableEq, Inhabited

/-- Well-known persisted model location (src/models/delay_logreg.py,
lines 29-32). -/
def modelPathStr : String := "models/logreg_delay.pkl"

/-- Message of the FileNotFoundError raised by `_load_trained_pipeline`
(src/models/delay_logreg.py, lines 289-292). -/
def modelNotFoundMsg : String :=
  "Trainiertes Modell nicht gefunden unter " ++ modelPathStr ++
    ". Bitte zuerst train_model() ausführen."

/-- Embedding of `_load_trained_pipeline` (src/models/delay_logreg.py,
lines 284-296).  The persisted store is injected as `Option Artifact`
(`none` = no file at the model path).  Note the function loads only
`obj["pipeline"]` from the artifact; the ordered feature-name lists
carried by the fitted pipeline itself are what the later encoding uses. -/
def loadTrainedPipeline (store : Option Artifact) : Except PredError FittedPipeline :=
  match store with
  | none => .error (.modelNotFound modelNotFoundMsg)
  | some obj => .ok obj.pipeline

/-- Single-row inference frame built by `predict_delay_proba`
(src/models/delay_logreg.py, lines 336-354), with the fixed defaults for
the attributes not exposed at the inference boundary: arr_airport_id :=
the departure airport, month := 1, day_of_week := 1, is_weekend :=
false. -/
def inferenceRow (depAirport airline depLabel : String) (tavg prcp wspd : ℚ)
    (numDeps : Int) : Row :=
  [("dep_airport_id", Value.str depAirport),
   ("arr_airport_id", Value.str depAirport),
   ("airline_id", Value.str airline),
   ("dep_time_label", Value.str depLabel),
   ("month", Value.num 1),
   ("day_of_week", Value.num 1),
   ("is_weekend", Value.bool false),
   ("tavg", Value.num tavg),
   ("prcp", Value.num prcp),
   ("wspd", Value.num wspd),
   ("num_departures_same_slot_airport", Value.num (numDeps : ℚ))]

/-- Embedding of `predict_delay_proba` (src/models/delay_logreg.py, lines
299-357): load the persisted pipeline (propagating the model-not-found
error), normalize the string inputs — airport stripped and uppercased,
airline and departure-time label stripped only (lines 332-334) — build
the single-row frame and ask the fitted pipeline for the class-1
probability. -/
def predictDelayProba (store : Option Artifact) (airport_id airline_id dep_time_label : String)
    (tavg prcp wspd : ℚ) (num_departures_same_slot_airport : Int) : Except PredError ℚ :=
  match loadTrainedPipeline store with
  | .error e => .error e
  | .ok pipeline =>
    let depAirport := pyUpper (pyStrip airport_id)
    let airline := pyStrip airline_id
    let depLabel := pyStrip dep_time_label
    let data := inferenceRow depAirport airline depLabel tavg prcp wspd
      num_departures_same_slot_airport
    match pipelinePredictProba pipeline data with
    | .error e => .error (.pipelineError e)
    | .ok q => .ok q

/-- Call of `predict_delay_proba` with the `num_departures_same_slot_airport`
argument omitted: the source declares this parameter with the default
value 1 (src/models/delay_logreg.py, line 306), so Python fills in 1. -/
def predictDelayProbaDefault (store : Option Artifact)
    (airport_id airline_id dep_time_label : String) (tavg prcp wspd : ℚ) : Except PredError ℚ :=
  predictDelayProba store airport_id airline_id dep_time_label tavg prcp wspd 1

/-- Python truthiness test `not value` on an optional dropdown string:
true when the value is absent or the empty string
(src/app/callbacks/predictive_delay.py, lines 88-93). -/
def isBlankOpt : Option String → Bool
  | none => true
  | some s => s.isEmpty

/-- Missing-field enumeration of `run_predictive_delay`
(src/app/callbacks/predictive_delay.py, lines 87-101): the UI labels of
every absent required input, in the fixed order of the checks. -/
def missingFields (airport airline depLabel : Option String)
    (tavg prcp wspd : Option ℚ) (numDeps : Option Int) : List String :=
  (if isBlankOpt airport then ["Airport"] else []) ++
  (if isBlankOpt airline then ["Airline"] else []) ++
  (if isBlankOpt depLabel then ["Dep Time Label"] else []) ++
  (if tavg.isNone then ["tavg"] else []) ++
  (if prcp.isNone then ["prcp"] else []) ++
  (if wspd.isNone then ["wspd"] else []) ++
  (if numDeps.isNone then ["Anzahl Abflüge im Slot"] else [])

/-- Embedding of the dashboard callback `run_predictive_delay`
(src/app/callbacks/predictive_delay.py, lines 74-127), which returns the
user-visible message string.  Control flow of the source: no click yet →
prompt; any required input absent → the missing-field enumeration, before
any model access; otherwise call `predict_delay_proba`, translating a
FileNotFoundError into the train-first message and any other error into a
generic failure message.  Inner quotation marks of the first source
message are elided here. -/
def runPredictiveDelay (store : Option Artifact) (nClicks : Nat)
    (airport airline depLabel : Option String) (tavg prcp wspd : Option ℚ)
    (numDeps : Option Int) : String :=
  if nClicks = 0 then "Bitte Parameter wählen und Vorhersage berechnen klicken."
  else
    let missing := missingFields airport airline depLabel tavg prcp wspd numDeps
    if missing.isEmpty then
      match predictDelayProba store (airport.getD "") (airline.getD "") (depLabel.getD "")
          (tavg.getD 0) (prcp.getD 0) (wspd.getD 0) (numDeps.getD 0) with
      | .error (.modelNotFound _) =>
        "Kein trainiertes Modell gefunden. Bitte zuerst das Modell trainieren (models/delay_logreg.py ausführen)."
      | .error (.pipelineError e) => "Fehler bei der Vorhersage: " ++ e
      | .ok proba =>
        let pct := proba * 100
        "Geschätzte Wahrscheinlichkeit für Delay >= 15 Minuten: " ++ toString pct ++ " %"
    else
      "Fehlende Eingaben: " ++ String.intercalate ", " missing

/-- Flight record carrying the three grouping columns of the congestion
feature plus the record's own identity (src/models/delay_logreg.py,
lines 67-98; the frame's remaining columns play no role in the count and
are represented by the flight id). -/
structure FlightRec where
  flight_id : Int
  flight_date_id : Int
  dep_airport_id : String
  dep_time_label : String
deriving DecidableEq, Inhabited

/-- Two flight records fall into the same congestion group iff they agree
on the (flight_date_id, dep_airport_id, dep_time_label) triple
(src/models/delay_logreg.py, line 88). -/
def sameSlot (a b : FlightRec) : Bool :=
  decide (a.flight_date_id = b.flight_date_id) &&
  decide (a.dep_airport_id = b.dep_airport_id) &&
  decide (a.dep_time_label = b.dep_time_label)

/-- Embedding of `add_congestion_feature` (src/models/delay_logreg.py,
lines 67-98): `groupby(triple).size()` joined back on the triple attaches
to every record the number of records of the frame sharing its triple,
keeping the frame's rows and order; the result pairs each record with its
`num_departures_same_slot_airport` count.  The KeyError branch for absent
grouping columns (lines 80-83) is unreachable here because the record
type always carries the three columns. -/
def addCongestionFeature (df : List FlightRec) : List (FlightRec × Nat) :=
  df.map (fun r => (r, df.countP (fun x => sameSlot x r)))

/-- Decidable equality of `Except` results, used to evaluate concrete runs
of the embedded functions. -/
instance {ε α : Type} [DecidableEq ε] [DecidableEq α] : DecidableEq (Except ε α) :=
  fun a b =>
    match a, b with
    | .ok x, .ok y =>
      if h : x = y then isTrue (by rw [h]) else isFalse (fun hc => h (Except.ok.inj hc))
    | .error x, .error y =>
      if h : x = y then isTrue (by rw [h]) else isFalse (fun hc => h (Except.error.inj hc))
    | .ok _, .error _ => isFalse (fun hc => Except.noConfusion hc)
    | .error _, .ok _ => isFalse (fun hc => Except.noConfusion hc)

/-- Specification-side encoding (spec §4.4, Inference): select the values
of a row under exactly the ordered categorical and numeric feature-name
lists stored in the persisted artifact.  Stated from the spec's words, to
be compared against what the code's inference path computes. -/
def specEncodeWithArtifactLists (art : Artifact) (row : Row) : List Value :=
  (art.categorical_features ++ art.numeric_features).filterMap (getCol row)

/-- Constant daily series: n consecutive days with the same average delay
c, one flight per day. -/
def constSeries (c : ℚ) (n : Nat) : List DailyRow :=
  (List.range n).map (fun (i : Nat) =>
    { date := Int.ofNat i, avg_dep_delay := some c, num_flights := 1 })

/-- Toy single-airport warehouse used by concrete runs below. -/
def q1 : String → List DailyRow := fun a =>
  if a = "JFK" then [{ date := 0, avg_dep_delay := some 5, num_flights := 1 }] else []

/-- Two daily rows listed in descending date order: an input that is not
sorted ascending by date. -/
def unsortedInput : List DailyRow :=
  [{ date := 1, avg_dep_delay := some 6, num_flights := 1 },
   { date := 0, avg_dep_delay := some 5, num_flights := 1 }]

/-- Concrete fitted predictor that distinguishes the airline cell value
"DL" (position 2 of the encoded value list) from every other value — as a
fitted one-hot encoding followed by a logistic regression can, since "DL"
and "dl" one-hot-encode to different vectors. -/
def caseSensitiveFit : List Value → ℚ := fun vals =>
  if vals.getD 2 (Value.num 0) = Value.str "DL" then 9 / 10 else 1 / 10

/-- Half fit: a fitted predictor returning probability 1/2 regardless of
the encoded values. -/
def halfFit : List Value → ℚ := fun _ => 1 / 2

/-- One-day daily frame used by concrete runs below. -/
def oneDay : List DailyRow := [{ date := 0, avg_dep_delay := some 5, num_flights := 1 }]

/-- Annotated row of a one-day frame whose window holds too few
observations: null rolling statistics, masked z-score. -/
def zrowNull : ZRow :=
  { date := 0, avg_dep_delay := some 5, num_flights := 1, rolling_mean := none,
    rolling_std := none, z_score := some 0 }

/-- Single output row of a concrete `detectAnomalies` run. -/
def c3row : OutRow :=
  { date := 0, avg_dep_delay := some 5, num_flights := 1, z_score := some 0,
    is_anomaly := false }

/-! Helper lemmas shared by the claim theorems. -/

/-- Characterization of the boolean |z| > t test on a nullable z-score. -/
theorem absGtQ_eq_true {z : Option ℚ} {t : ℚ} :
    absGtQ z t = true ↔ ∃ v, z = some v ∧ t < |v| := by
  cases z <;> simp [absGtQ]

/-- Successful runs of `computeZScores` return either the empty frame or
the rolling-annotated sorted frame under valid parameters. -/
theorem computeZScores_ok {sqrt : ℚ → ℚ} {window minPeriods : Int} {df : List DailyRow}
    {rows : List ZRow} (h : computeZScores sqrt window minPeriods df = .ok rows) :
    rows = [] ∨
      (0 ≤ minPeriods ∧ minPeriods ≤ window ∧
        rows = zRows sqrt window.toNat minPeriods.toNat (sortByDate df)) := by
  unfold computeZScores at h
  split at h
  · exact Or.inl (Except.ok.inj h).symm
  · split at h
    · exact absurd h (by simp)
    · split at h
      · exact absurd h (by simp)
      · split at h
        · exact absurd h (by simp)
        · refine Or.inr ⟨by omega, by omega, (Except.ok.inj h).symm⟩

/-- Membership in `zRows`: every row is the annotated row at some index of
the input frame. -/
theorem mem_zRows {sqrt : ℚ → ℚ} {w p : Nat} {df : List DailyRow} {r : ZRow}
    (h : r ∈ zRows sqrt w p df) :
    ∃ i, i < df.length ∧
      r = { date := (df.getD i default).date
            avg_dep_delay := (df.getD i default).avg_dep_delay
            num_flights := (df.getD i default).num_flights
            rolling_mean := rollingMeanAt w p (avgsOf df) i
            rolling_std := rollingStdAt sqrt w p (avgsOf df) i
            z_score := zScoreOf (df.getD i default).avg_dep_delay
              (rollingMeanAt w p (avgsOf df) i) (rollingStdAt sqrt w p (avgsOf df) i) } := by
  simp only [zRows, List.mem_map, List.mem_range] at h
  obtain ⟨i, hi, rfl⟩ := h
  exact ⟨i, hi, rfl⟩

/-- Element extraction from `zRows` by index. -/
theorem zRows_getD {sqrt : ℚ → ℚ} {w p : Nat} {df : List DailyRow} {i : Nat}
    (h : i < (zRows sqrt w p df).length) :
    (zRows sqrt w p df).getD i default =
      { date := (df.getD i default).date
        avg_dep_delay := (df.getD i default).avg_dep_delay
        num_flights := (df.getD i default).num_flights
        rolling_mean := rollingMeanAt w p (avgsOf df) i
        rolling_std := rollingStdAt sqrt w p (avgsOf df) i
        z_score := zScoreOf (df.getD i default).avg_dep_delay
          (rollingMeanAt w p (avgsOf df) i) (rollingStdAt sqrt w p (avgsOf df) i) } := by
  rw [List.getD_eq_getElem _ _ h]
  simp only [zRows, List.getElem_map, List.getElem_range]

/-- The trailing window ending at index `i` holds at most `i + 1`
observations. -/
theorem windowVals_length_le (w : Nat) (xs : List (Option ℚ)) (i : Nat) :
    (windowVals w xs i).length ≤ i + 1 := by
  unfold windowVals
  calc (((xs.take (i + 1)).drop (i + 1 - w)).filterMap id).length
      ≤ ((xs.take (i + 1)).drop (i + 1 - w)).length := List.length_filterMap_le _ _
    _ ≤ (xs.take (i + 1)).length := by rw [List.length_drop]; omega
    _ ≤ i + 1 := by rw [List.length_take]; omega

/-- Rolling mean is null when the window holds fewer than `p` non-null
observations. -/
theorem rollingMeanAt_none {w p : Nat} {xs : List (Option ℚ)} {i : Nat}
    (h : (windowVals w xs i).length < p) : rollingMeanAt w p xs i = none := by
  unfold rollingMeanAt
  rw [if_neg]
  rintro ⟨h1, -⟩
  omega

/-- Rolling variance is null when the window holds fewer than `p` non-null
observations. -/
theorem rollingVarAt_none {w p : Nat} {xs : List (Option ℚ)} {i : Nat}
    (h : (windowVals w xs i).length < p) : rollingVarAt w p xs i = none := by
  unfold rollingVarAt
  rw [if_neg]
  rintro ⟨h1, -⟩
  omega

/-- Rolling standard deviation is null when the window holds fewer than
`p` non-null observations. -/
theorem rollingStdAt_none {sqrt : ℚ → ℚ} {w p : Nat} {xs : List (Option ℚ)} {i : Nat}
    (h : (windowVals w xs i).length < p) : rollingStdAt sqrt w p xs i = none := by
  unfold rollingStdAt
  rw [rollingVarAt_none h]
  rfl

/-- Filtering the somes out of a constant all-some list. -/
theorem filterMap_id_replicate_some (m : Nat) (c : ℚ) :
    List.filterMap id (List.replicate m (some c)) = List.replicate m c := by
  induction m with
  | zero => rfl
  | succ k ih => simp [List.replicate_succ, List.filterMap_cons, ih]

/-- The trailing window of a constant all-some series is a constant
list. -/
theorem windowVals_replicate (w n i : Nat) (c : ℚ) :
    windowVals w (List.replicate n (some c)) i
      = List.replicate (min (i + 1) n - (i + 1 - w)) c := by
  unfold windowVals
  rw [List.take_replicate, List.drop_replicate, filterMap_id_replicate_some]

/-- Rolling variance over a constant series is null or exactly zero. -/
theorem rollingVarAt_replicate (w p n i : Nat) (c : ℚ) :
    rollingVarAt w p (List.replicate n (some c)) i = none ∨
      rollingVarAt w p (List.replicate n (some c)) i = some 0 := by
  unfold rollingVarAt
  rw [windowVals_replicate]
  set m := min (i + 1) n - (i + 1 - w) with hm
  by_cases hc : p ≤ (List.replicate m c).length ∧ 1 ≤ (List.replicate m c).length
  · right
    rw [if_pos hc]
    have hm1 : 1 ≤ m := by simpa using hc.2
    have hmne : (m : ℚ) ≠ 0 := Nat.cast_ne_zero.mpr (by omega)
    have hmean : (List.replicate m c).sum / ((List.replicate m c).length : ℚ) = c := by
      rw [List.sum_replicate, List.length_replicate, nsmul_eq_mul, mul_comm,
        mul_div_assoc, div_self hmne, mul_one]
    rw [hmean]
    simp [List.map_replicate, List.sum_replicate]
  · left
    rw [if_neg hc]

/-- The average-delay column of the sorted constant series is the constant
all-some list. -/
theorem avgsOf_sortByDate_constSeries (c : ℚ) (n : Nat) :
    avgsOf (sortByDate (constSeries c n)) = List.replicate n (some c) := by
  have hperm : (sortByDate (constSeries c n)).Perm (constSeries c n) :=
    List.perm_insertionSort _ _
  have hlen : (avgsOf (sortByDate (constSeries c n))).length = n := by
    rw [avgsOf, List.length_map, hperm.length_eq, constSeries, List.length_map,
      List.length_range]
  have hmem : ∀ x ∈ avgsOf (sortByDate (constSeries c n)), x = some c := by
    intro x hx
    simp only [avgsOf, List.mem_map] at hx
    obtain ⟨r, hr, rfl⟩ := hx
    have hr2 : r ∈ constSeries c n := hperm.subset hr
    simp only [constSeries, List.mem_map, List.mem_range] at hr2
    obtain ⟨i, -, rfl⟩ := hr2
    rfl
  exact (List.eq_replicate_length.2 hmem).trans (by rw [hlen])

/-- Mask lemma: the z-score is exactly 0 whenever the standard deviation
it divides by is null or exactly 0. -/
theorem zScoreOf_of_std_none_or_zero {a m s : Option ℚ} (h : s = none ∨ s = some 0) :
    zScoreOf a m s = some 0 := by
  unfold zScoreOf
  rw [if_pos h]

/-- Rolling standard deviation over a constant series is null or exactly
zero, for any square root sending 0 to 0. -/
theorem rollingStdAt_replicate {sqrt : ℚ → ℚ} (hs : sqrt 0 = 0) (w p n i : Nat) (c : ℚ) :
    rollingStdAt sqrt w p (List.replicate n (some c)) i = none ∨
      rollingStdAt sqrt w p (List.replicate n (some c)) i = some 0 := by
  rcases rollingVarAt_replicate w p n i c with hv | hv
  · left
    rw [rollingStdAt, hv]
    rfl
  · right
    rw [rollingStdAt, hv]
    show some (sqrt 0) = some 0
    rw [hs]

/-- Field equations for a member of `zRows`: its standard-deviation column
is the rolling standard deviation at its index and its z-score column is
the masked z-score of its own columns. -/
theorem mem_zRows_fields {sqrt : ℚ → ℚ} {w p : Nat} {df : List DailyRow} {r : ZRow}
    (h : r ∈ zRows sqrt w p df) :
    ∃ i, i < df.length ∧ r.rolling_std = rollingStdAt sqrt w p (avgsOf df) i ∧
      r.z_score = zScoreOf r.avg_dep_delay r.rolling_mean r.rolling_std := by
  simp only [zRows, List.mem_map, List.mem_range] at h
  obtain ⟨i, hi, rfl⟩ := h
  exact ⟨i, hi, rfl, rfl⟩

/-! Claim theorems. -/

/-- C2: every successful rolling-statistics run sets each day's z-score to
(avg_dep_delay − rolling_mean) / rolling_std (null-propagating), except
that the z-score is exactly 0 — never null, never undefined — whenever
that day's rolling_std is null or exactly 0; and on every constant-valued
series longer than the window (with valid parameters and a square root
sending 0 to 0) the z-score is exactly 0 at every point. -/
theorem claimC2_z_score_mask :
    (∀ (sqrt : ℚ → ℚ) (window minPeriods : Int) (df : List DailyRow) (rows : List ZRow),
      computeZScores sqrt window minPeriods df = .ok rows →
      ∀ r ∈ rows,
        r.z_score = if r.rolling_std = none ∨ r.rolling_std = some 0 then some 0
          else odiv (osub r.avg_dep_delay r.rolling_mean) r.rolling_std)
    ∧ (∀ sqrt : ℚ → ℚ, sqrt 0 = 0 →
        ∀ (c : ℚ) (n : Nat) (window minPeriods : Int) (rows : List ZRow),
          0 ≤ minPeriods → minPeriods ≤ window → window < (n : Int) →
          computeZScores sqrt window minPeriods (constSeries c n) = .ok rows →
          ∀ r ∈ rows, r.z_score = some 0) := by
  constructor
  · intro sqrt window minPeriods df rows h r hr
    rcases computeZScores_ok h with rfl | ⟨-, -, rfl⟩
    · exact absurd hr (List.not_mem_nil r)
    · obtain ⟨i, hi, hstd, hz⟩ := mem_zRows_fields hr
      rw [hz]
      rfl
  · intro sqrt hs c n window minPeriods rows h0 hpw hwn h r hr
    rcases computeZScores_ok h with rfl | ⟨-, -, rfl⟩
    · exact absurd hr (List.not_mem_nil r)
    · obtain ⟨i, hi, hstd, hz⟩ := mem_zRows_fields hr
      rw [hz]
      apply zScoreOf_of_std_none_or_zero
      rw [hstd, avgsOf_sortByDate_constSeries]
      exact rollingStdAt_replicate hs window.toNat minPeriods.toNat n i c

/-- C2 witness: a concrete one-day constant series with window 0 — the
returned z-score column is exactly 0. -/
theorem claimC2_witness : zrowNull.z_score = some 0 :=
  claimC2_z_score_mask.2 id rfl 5 1 0 0 [zrowNull]
    (by decide) (by decide) (by decide) (by decide) _ (by decide)

/-- C3: every row of a successful `detect_anomalies` run has its date
inside [start, end], has at least the minimum daily flight count, carries
is_anomaly true iff |z_score| strictly exceeds the threshold, and the
returned rows are ordered ascending by date. -/
theorem claimC3_detect_anomalies_rows :
    ∀ (sqrt : ℚ → ℚ) (query : String → List DailyRow) (airport : String)
      (startDate endDate : Int) (threshold : ℚ) (window minPeriods minFlights : Int)
      (rows : List OutRow),
      detectAnomalies sqrt query airport startDate endDate threshold window minPeriods
          minFlights = .ok rows →
      (∀ r ∈ rows,
        (startDate ≤ r.date ∧ r.date ≤ endDate) ∧ minFlights ≤ r.num_flights ∧
          (r.is_anomaly = true ↔ ∃ v, r.z_score = some v ∧ threshold < |v|))
      ∧ List.Pairwise outLe rows := by
  intro sqrt query airport startDate endDate threshold window minPeriods minFlights rows h
  simp only [detectAnomalies] at h
  split at h
  · obtain rfl : rows = [] := (Except.ok.inj h).symm
    exact ⟨fun r hr => absurd hr (List.not_mem_nil r), List.Pairwise.nil⟩
  · split at h
    · exact absurd h (by simp)
    · obtain rfl := (Except.ok.inj h).symm
      constructor
      · intro r hr
        simp only [sortOutByDate, List.mem_insertionSort, List.mem_map, List.mem_filter] at hr
        obtain ⟨zr, ⟨⟨hz1, hc1⟩, hc2⟩, rfl⟩ := hr
        exact ⟨of_decide_eq_true hc1, of_decide_eq_true hc2, absGtQ_eq_true⟩
      · exact List.sorted_insertionSort outLe _

/-- C3 witness: a concrete run returning one row — that row lies in the
requested range, meets the flight minimum, carries a correct flag, and
the output is sorted. -/
theorem claimC3_witness :
    (((0 : Int) ≤ c3row.date ∧ c3row.date ≤ 0) ∧ (0 : Int) ≤ c3row.num_flights ∧
      (c3row.is_anomaly = true ↔ ∃ v, c3row.z_score = some v ∧ (3 : ℚ) < |v|))
    ∧ List.Pairwise outLe [c3row] := by
  have h := claimC3_detect_anomalies_rows id q1 "JFK" 0 0 3 2 2 0 [c3row] (by decide)
  exact ⟨h.1 _ (by decide), h.2⟩

/-- C4 counterexample: an input that is not sorted ascending by date on
which the rolling-statistics computation succeeds (returning the frame
sorted) instead of failing — the code sorts its input itself. -/
theorem claimC4_counterexample :
    ¬ List.Pairwise dailyLe unsortedInput
    ∧ computeZScores id 3 3 unsortedInput
      = Except.ok
          [{ date := 0, avg_dep_delay := some 5, num_flights := 1, rolling_mean := none,
             rolling_std := none, z_score := some 0 },
           { date := 1, avg_dep_delay := some 6, num_flights := 1, rolling_mean := none,
             rolling_std := none, z_score := some 0 }] :=
  ⟨by decide, by decide⟩

/-- C4 amended: the rolling-statistics computation never fails on an
unsorted input — it sorts the series itself, and its result is invariant
under pre-sorting; on a nonempty input it fails exactly when min_periods
is negative, min_periods exceeds window, or window is negative (so
window = 0 with min_periods = 0 succeeds); an empty input returns
immediately with no validation at all. -/
theorem claimC4_amended_validation :
    (∀ (sqrt : ℚ → ℚ) (window minPeriods : Int) (df : List DailyRow), df ≠ [] →
      ((computeZScores sqrt window minPeriods df).isOk = true ↔
        ¬(minPeriods < 0 ∨ window < minPeriods ∨ window < 0)))
    ∧ (∀ (sqrt : ℚ → ℚ) (window minPeriods : Int),
        computeZScores sqrt window minPeriods [] = Except.ok [])
    ∧ (∀ (sqrt : ℚ → ℚ) (window minPeriods : Int) (df : List DailyRow),
        computeZScores sqrt window minPeriods df
          = computeZScores sqrt window minPeriods (sortByDate df)) := by
  refine ⟨?_, ?_, ?_⟩
  · intro sqrt window minPeriods df hdf
    have hde : df.isEmpty = false := by
      cases df with
      | nil => exact absurd rfl hdf
      | cons x xs => rfl
    unfold computeZScores
    rw [hde]
    simp only [Bool.false_eq_true, if_false]
    split_ifs with h1 h2 h3
    · exact iff_of_false (by simp [Except.isOk, Except.toBool]) (by omega)
    · exact iff_of_false (by simp [Except.isOk, Except.toBool]) (by omega)
    · exact iff_of_false (by simp [Except.isOk, Except.toBool]) (by omega)
    · exact iff_of_true (by simp [Except.isOk, Except.toBool]) (by omega)
  · intro sqrt window minPeriods
    rfl
  · intro sqrt window minPeriods df
    have hss : sortByDate (sortByDate df) = sortByDate df :=
      List.Sorted.insertionSort_eq (List.sorted_insertionSort dailyLe df)
    have hie : (sortByDate df).isEmpty = df.isEmpty := by
      cases df with
      | nil => rfl
      | cons x xs =>
        have hl : (sortByDate (x :: xs)).length = (x :: xs).length :=
          (List.perm_insertionSort dailyLe (x :: xs)).length_eq
        cases hs : sortByDate (x :: xs) with
        | nil => rw [hs] at hl; simp at hl
        | cons y ys => rfl
    unfold computeZScores
    rw [hie, hss]

/-- C4 witness: concrete runs — invalid windowing parameters fail on a
nonempty input, the empty input succeeds with no validation, and the
result on an unsorted input equals the result on its sorted version. -/
theorem claimC4_witness :
    (computeZScores id 2 3 unsortedInput).isOk = false
    ∧ computeZScores id 2 1 ([] : List DailyRow) = Except.ok []
    ∧ computeZScores id 3 3 unsortedInput = computeZScores id 3 3 (sortByDate unsortedInput) := by
  refine ⟨?_, claimC4_amended_validation.2.1 id 2 1,
    claimC4_amended_validation.2.2 id 3 3 unsortedInput⟩
  have h := claimC4_amended_validation.1 id 2 3 unsortedInput (by decide)
  cases hb : (computeZScores id 2 3 unsortedInput).isOk with
  | false => rfl
  | true =>
    exact absurd (by norm_num : ((3 : Int) < 0 ∨ (2 : Int) < 3 ∨ (2 : Int) < 0)) (h.mp hb)

/-- C6: in every successful rolling-statistics run, a day whose trailing
window holds fewer than min_periods non-null observations has null
rolling_mean and null rolling_std; in particular every one of the first
min_periods − 1 days of the series has null rolling statistics. -/
theorem claimC6_min_periods_null :
    ∀ (sqrt : ℚ → ℚ) (window minPeriods : Int) (df : List DailyRow) (rows : List ZRow),
      computeZScores sqrt window minPeriods df = .ok rows →
      ∀ i : Nat, i < rows.length →
        ((windowVals window.toNat (avgsOf (sortByDate df)) i).length < minPeriods.toNat →
          (rows.getD i default).rolling_mean = none
            ∧ (rows.getD i default).rolling_std = none)
        ∧ ((i : Int) + 1 < minPeriods →
          (rows.getD i default).rolling_mean = none
            ∧ (rows.getD i default).rolling_std = none) := by
  intro sqrt window minPeriods df rows h i hi
  rcases computeZScores_ok h with rfl | ⟨hp0, hpw, rfl⟩
  · simp at hi
  · rw [zRows_getD hi]
    constructor
    · intro hcount
      exact ⟨rollingMeanAt_none hcount, rollingStdAt_none hcount⟩
    · intro hfirst
      have hle := windowVals_length_le window.toNat (avgsOf (sortByDate df)) i
      have hcount : (windowVals window.toNat (avgsOf (sortByDate df)) i).length
          < minPeriods.toNat := by omega
      exact ⟨rollingMeanAt_none hcount, rollingStdAt_none hcount⟩

/-- C6 witness: a one-day series under min_periods = 2 — the first day's
rolling statistics are null. -/
theorem claimC6_witness :
    (([zrowNull] : List ZRow).getD 0 default).rolling_mean = none
    ∧ (([zrowNull] : List ZRow).getD 0 default).rolling_std = none :=
  (claimC6_min_periods_null id 3 2 oneDay [zrowNull] (by decide) 0 (by decide)).2 (by decide)

/-- C1: at inference time, `predict_delay_proba` encodes its single input
row using exactly the ordered categorical and numeric feature-name lists
stored in the persisted trained artifact — identical lists (hence
identical sets in identical order) to those the pipeline was fitted with:
the fitted pipeline's input-column selection equals the artifact's stored
lists, and the returned probability is the fitted predictor applied to
the values selected under exactly those stored lists. -/
theorem claimC1_train_infer_feature_parity :
    ∀ (fit : List Value → ℚ) (metrics : List (String × ℚ)) (a b c : String) (t p w : ℚ)
      (n : Int),
      pipelineInputCols (trainModel fit metrics).pipeline
        = (trainModel fit metrics).categorical_features
            ++ (trainModel fit metrics).numeric_features
      ∧ predictDelayProba (some (trainModel fit metrics)) a b c t p w n
        = Except.ok (fit (specEncodeWithArtifactLists (trainModel fit metrics)
            (inferenceRow (pyUpper (pyStrip a)) (pyStrip b) (pyStrip c) t p w n))) :=
  fun _ _ _ _ _ _ _ _ _ => ⟨rfl, rfl⟩

/-- C5 counterexample: `predict_delay_proba` does not require its seventh
input — calling it with `num_departures_same_slot_airport` omitted
silently fills the declared default 1 and succeeds, instead of failing
with a missing-input error. -/
theorem claimC5_counterexample :
    predictDelayProbaDefault (some (trainModel halfFit [])) "JFK" "DL" "Morning" 10 0 5
      = Except.ok (1 / 2)
    ∧ predictDelayProbaDefault (some (trainModel halfFit [])) "JFK" "DL" "Morning" 10 0 5
      = predictDelayProba (some (trainModel halfFit [])) "JFK" "DL" "Morning" 10 0 5 1 :=
  ⟨rfl, rfl⟩

/-- C5 amended: the dashboard callback `run_predictive_delay` treats all
seven inference inputs as required, and when any are absent it returns the
message enumerating every missing field by name, without touching the
model (the result is independent of the persisted store); however
`predict_delay_proba` itself declares the same-slot departure count with
the silent default 1. -/
theorem claimC5_amended_required_inputs :
    (∀ (store store' : Option Artifact) (nClicks : Nat)
      (airport airline depLabel : Option String) (tavg prcp wspd : Option ℚ)
      (numDeps : Option Int),
      nClicks ≠ 0 →
      missingFields airport airline depLabel tavg prcp wspd numDeps ≠ [] →
      runPredictiveDelay store nClicks airport airline depLabel tavg prcp wspd numDeps
        = "Fehlende Eingaben: " ++ String.intercalate ", "
            (missingFields airport airline depLabel tavg prcp wspd numDeps)
      ∧ runPredictiveDelay store nClicks airport airline depLabel tavg prcp wspd numDeps
        = runPredictiveDelay store' nClicks airport airline depLabel tavg prcp wspd numDeps)
    ∧ (∀ (store : Option Artifact) (a b c : String) (t p w : ℚ),
        predictDelayProbaDefault store a b c t p w = predictDelayProba store a b c t p w 1) := by
  constructor
  · intro store store' nClicks airport airline depLabel tavg prcp wspd numDeps hn hm
    have hne : (missingFields airport airline depLabel tavg prcp wspd numDeps).isEmpty
        = false := by
      cases hmf : missingFields airport airline depLabel tavg prcp wspd numDeps with
      | nil => exact absurd hmf hm
      | cons x xs => rfl
    have key : ∀ s : Option Artifact,
        runPredictiveDelay s nClicks airport airline depLabel tavg prcp wspd numDeps
          = "Fehlende Eingaben: " ++ String.intercalate ", "
              (missingFields airport airline depLabel tavg prcp wspd numDeps) := by
      intro s
      simp only [runPredictiveDelay, if_neg hn, hne, Bool.false_eq_true, if_false]
    exact ⟨key store, (key store).trans (key store').symm⟩
  · intro store a b c t p w
    rfl

/-- C5 witness: a concrete call with the airport missing yields the
enumeration message naming the missing field. -/
theorem claimC5_witness :
    runPredictiveDelay none 1 none (some "DL") (some "Night") (some 1) (some 1) (some 1)
        (some 1)
      = "Fehlende Eingaben: Airport" := by
  have h := (claimC5_amended_required_inputs.1 none none 1 none (some "DL") (some "Night")
    (some 1) (some 1) (some 1) (some 1) (by decide) (by decide)).1
  exact h.trans (by decide)

/-- C7: calling inference with no persisted artifact fails with the
distinct model-not-found error — not a generic failure — whose message
says to run the training first, and the dashboard callback maps exactly
this error to its dedicated train-first message. -/
theorem claimC7_model_not_found :
    (∀ (a b c : String) (t p w : ℚ) (n : Int),
      predictDelayProba none a b c t p w n
        = Except.error (PredError.modelNotFound modelNotFoundMsg))
    ∧ loadTrainedPipeline none = Except.error (PredError.modelNotFound modelNotFoundMsg)
    ∧ runPredictiveDelay none 1 (some "JFK") (some "DL") (some "Night") (some 1) (some 1)
        (some 1) (some 1)
      = "Kein trainiertes Modell gefunden. Bitte zuerst das Modell trainieren (models/delay_logreg.py ausführen)." :=
  ⟨fun _ _ _ _ _ _ _ => rfl, rfl, rfl⟩

/-- C8: `add_congestion_feature` attaches to the i-th record of the frame
the number of records of the whole frame sharing that record's
(flight date, departure airport, departure-time label) triple, and this
count is invariant under any reordering of the input collection. -/
theorem claimC8_congestion_count :
    (∀ (df : List FlightRec) (i : Nat), i < df.length →
      (addCongestionFeature df).getD i (default, 0)
        = (df.getD i default, df.countP (fun x => sameSlot x (df.getD i default))))
    ∧ (∀ (df df' : List FlightRec), df.Perm df' → ∀ r : FlightRec,
        df.countP (fun x => sameSlot x r) = df'.countP (fun x => sameSlot x r)) := by
  constructor
  · intro df i h
    have h2 : i < (addCongestionFeature df).length := by
      simpa [addCongestionFeature] using h
    rw [List.getD_eq_getElem _ _ h2, List.getD_eq_getElem _ _ h]
    simp [addCongestionFeature]
  · intro df df' hp r
    exact hp.countP_eq _

/-- C8 witness: concrete three-flight frame — the first record's count is
2, and the count is unchanged under reversal of the frame. -/
theorem claimC8_witness :
    (addCongestionFeature
        [{ flight_id := 1, flight_date_id := 0, dep_airport_id := "JFK", dep_time_label := "M" },
         { flight_id := 2, flight_date_id := 0, dep_airport_id := "JFK", dep_time_label := "M" },
         { flight_id := 3, flight_date_id := 0, dep_airport_id := "LAX", dep_time_label := "M" }]).getD
        0 (default, 0)
      = ({ flight_id := 1, flight_date_id := 0, dep_airport_id := "JFK", dep_time_label := "M" }, 2)
    ∧ List.countP (fun x => sameSlot x
          { flight_id := 1, flight_date_id := 0, dep_airport_id := "JFK", dep_time_label := "M" })
        [{ flight_id := 1, flight_date_id := 0, dep_airport_id := "JFK", dep_time_label := "M" },
         { flight_id := 2, flight_date_id := 0, dep_airport_id := "JFK", dep_time_label := "M" },
         { flight_id := 3, flight_date_id := 0, dep_airport_id := "LAX", dep_time_label := "M" }]
      = List.countP (fun x => sameSlot x
          { flight_id := 1, flight_date_id := 0, dep_airport_id := "JFK", dep_time_label := "M" })
        [{ flight_id := 3, flight_date_id := 0, dep_airport_id := "LAX", dep_time_label := "M" },
         { flight_id := 2, flight_date_id := 0, dep_airport_id := "JFK", dep_time_label := "M" },
         { flight_id := 1, flight_date_id := 0, dep_airport_id := "JFK", dep_time_label := "M" }] := by
  refine ⟨(claimC8_congestion_count.1 _ 0 (by decide)).trans (by decide),
    claimC8_congestion_count.2 _ _ (by decide) _⟩

/-- C9: for identical arguments, `detect_anomalies_list` returns exactly
the rows of `detect_anomalies` whose is_anomaly flag is set, in the same
order, converted to `AnomalyResult` records with all four fields
unchanged. -/
theorem claimC9_list_refines_frame :
    ∀ (sqrt : ℚ → ℚ) (query : String → List DailyRow) (airport : String)
      (startDate endDate : Int) (threshold : ℚ) (window minPeriods minFlights : Int),
      detectAnomaliesList sqrt query airport startDate endDate threshold window minPeriods
          minFlights
        = Except.map (fun df => (df.filter (fun r => r.is_anomaly)).map toAnomalyResult)
            (detectAnomalies sqrt query airport startDate endDate threshold window minPeriods
              minFlights) := by
  intro sqrt query airport startDate endDate threshold window minPeriods minFlights
  unfold detectAnomaliesList
  cases h : detectAnomalies sqrt query airport startDate endDate threshold window minPeriods
      minFlights with
  | error e => rfl
  | ok df =>
    by_cases hdf : df.isEmpty
    · have : df = [] := List.isEmpty_iff.mp hdf
      subst this
      rfl
    · simp only [hdf, Bool.false_eq_true, if_false, Except.map]

/-- C10 counterexample: two calls of `predict_delay_proba` that differ
only in the letter case of `airline_id` yield different results, because
airline_id is stripped but not case-normalized and the fitted pipeline
one-hot-encodes "DL" and "dl" differently. -/
theorem claimC10_counterexample :
    predictDelayProba (some (trainModel caseSensitiveFit [])) "JFK" "DL" "Morning" 1 1 1 1
      ≠ predictDelayProba (some (trainModel caseSensitiveFit [])) "JFK" "dl" "Morning" 1 1 1 1 := by
  intro h
  have h1 : predictDelayProba (some (trainModel caseSensitiveFit [])) "JFK" "DL" "Morning"
      1 1 1 1 = Except.ok ((9 : ℚ) / 10) := rfl
  have h2 : predictDelayProba (some (trainModel caseSensitiveFit [])) "JFK" "dl" "Morning"
      1 1 1 1 = Except.ok ((1 : ℚ) / 10) := rfl
  rw [h1, h2] at h
  have h3 : ((9 : ℚ) / 10) = (1 : ℚ) / 10 := Except.ok.inj h
  norm_num at h3

/-- C10 amended: `detect_anomalies` strips and uppercases its airport id,
and `predict_delay_proba` strips and uppercases its airport id and strips
(but does not case-normalize) its airline id and departure-time label; so
results are identical whenever the airport ids agree up to case and
whitespace and the airline id and label agree up to leading/trailing
whitespace. -/
theorem claimC10_amended_normalization :
    (∀ (sqrt : ℚ → ℚ) (query : String → List DailyRow) (a1 a2 : String)
      (startDate endDate : Int) (threshold : ℚ) (window minPeriods minFlights : Int),
      pyUpper (pyStrip a1) = pyUpper (pyStrip a2) →
      detectAnomalies sqrt query a1 startDate endDate threshold window minPeriods minFlights
        = detectAnomalies sqrt query a2 startDate endDate threshold window minPeriods
            minFlights)
    ∧ (∀ (store : Option Artifact) (a1 a2 b1 b2 c1 c2 : String) (t p w : ℚ) (n : Int),
        pyUpper (pyStrip a1) = pyUpper (pyStrip a2) → pyStrip b1 = pyStrip b2 →
        pyStrip c1 = pyStrip c2 →
        predictDelayProba store a1 b1 c1 t p w n = predictDelayProba store a2 b2 c2 t p w n) := by
  constructor
  · intro sqrt query a1 a2 startDate endDate threshold window minPeriods minFlights h
    simp only [detectAnomalies, loadDailyDelaysForAirport]
    rw [h]
  · intro store a1 a2 b1 b2 c1 c2 t p w n ha hb hc
    simp only [predictDelayProba]
    rw [ha, hb, hc]

/-- C10 witness: concrete calls whose airport ids differ only by case and
whitespace (and, for inference, whose airline ids differ only by
whitespace) yield identical results. -/
theorem claimC10_witness :
    detectAnomalies id q1 " jfk " 0 0 3 2 2 0 = detectAnomalies id q1 "JFK" 0 0 3 2 2 0
    ∧ predictDelayProba (some (trainModel caseSensitiveFit [])) " jfk " " DL " "Morning" 1 1 1 1
      = predictDelayProba (some (trainModel caseSensitiveFit [])) "JFK" "DL" "Morning" 1 1 1 1 :=
  ⟨claimC10_amended_normalization.1 id q1 " jfk " "JFK" 0 0 3 2 2 0 (by decide),
   claimC10_amended_normalization.2 (some (trainModel caseSensitiveFit [])) " jfk " "JFK"
     " DL " "DL" "Morning" "Morning" 1 1 1 1 (by decide) (by decide) (by decide)⟩

end BIProject
